import Mathlib

/-!
Verification of the cart-to-sale subsystem of an Express/PostgreSQL
commerce backend (src/index.js).  The five route handlers that the claims
concern are embedded shallowly:

* `addToCart`          — POST /cart                 (src/index.js lines 368-474)
* `addToSpecificCart`  — POST /cart/:cart_id        (lines 477-575)
* `getCart`            — GET  /cart/:cart_id        (lines 578-605)
* `checkout`           — POST /cart/:cart_id/checkout (lines 608-693)
* `setPrice`           — catalog price change, an external-collaborator
  action that the spec describes; no route in src/ performs it.

Modelling conventions, stated once here:

* The database is a record of lists mirroring the tables `products`,
  `carts`, `cart_items`, `sales`.  Row order models insertion order; SQL
  result order is taken to be table order.  Auto-increment keys are the
  `next…Id` counters.  The newly created cart receives status `active`:
  the INSERT at line 403 names no status column, and the schema file is
  not part of src/, so the default is modelled from the spec (a cart is
  created lazily as the active cart).
* Monetary values live in `ℚ`.  JavaScript arithmetic on them is binary64
  floating point, so the embedding routes every arithmetic step of the
  handlers through an exact model of IEEE-754 binary64
  round-to-nearest-ties-to-even (`toDoubleFrac`), written over `ℤ`/`ℕ` so
  that the kernel can evaluate it.  Exponent overflow and subnormal
  underflow are outside the magnitudes considered and are not modelled.
* `parseInt(x, 10)` and `parseFloat(x)` coerce their argument to a
  string; the model therefore takes the request quantity as its string
  image, and models the NUMERIC column values returned by node-postgres
  as the exact rational they print (parseFloat of that decimal string is
  `toDouble`).
* Authentication is external (ensureAuthenticated): the handlers receive
  the authenticated user id.  The SQL join with `users` can only drop a
  row when the owning user is missing, impossible under the foreign-key
  schema, so it is not modelled; `username`/`product_name` display
  strings are omitted from results.  Timestamps (`sale_date`, NOW()) are
  likewise omitted: no claim mentions them.
* Errors are the response kinds of the handlers: HTTP 400 `validation`,
  404 `notFound`, 403 `authorization`, 500 `internal`.  A handler that
  fails returns the unchanged database, mirroring ROLLBACK.
-/

/-! ### Exact model of JavaScript binary64 arithmetic -/

/-- Rounds the fraction a / b (with b positive) to the nearest integer,
ties going to the even neighbour, as IEEE-754 round-to-nearest-even
demands at mantissa granularity. -/
def roundFrac (a b : ℤ) : ℤ :=
  let f := Int.fdiv a b
  let r := a - f * b
  if 2 * r < b then f
  else if b < 2 * r then f + 1
  else if f % 2 = 0 then f else f + 1

/-- Binary exponent search: scales the positive fraction a / b into the
interval [1, 2) and returns the exponent, with enough fuel that the loop
always terminates on its exit branch for the magnitudes in use. -/
def findExp : ℕ → ℤ → ℤ → ℤ → ℤ
  | 0, _, _, e => e
  | n + 1, a, b, e =>
    if a < b then findExp n (2 * a) b (e - 1)
    else if 2 * b ≤ a then findExp n a (2 * b) (e + 1)
    else e

/-- Value of the fraction a / b (b positive) rounded to the nearest IEEE-754
binary64 number, returned as the exact rational that the double denotes.
The 53-bit mantissa is obtained with `roundFrac` at scale 2 ^ 52. -/
def toDoubleFrac (a b : ℤ) : ℚ :=
  if a = 0 then 0
  else
    let s : ℤ := if a < 0 then -1 else 1
    let na := s * a
    let e := findExp (na.natAbs + b.natAbs) na b 0
    let m := if 0 ≤ 52 - e then roundFrac (na * 2 ^ (52 - e).toNat) b
             else roundFrac na (b * 2 ^ (e - 52).toNat)
    if 0 ≤ e - 52 then mkRat (s * m * 2 ^ (e - 52).toNat) 1
    else mkRat (s * m) (2 ^ (52 - e).toNat)

/-- Nearest binary64 double of a rational: the JavaScript ToNumber image of
an exact decimal (for instance a NUMERIC column value), and also the
parseFloat of its printed form. -/
def toDouble (q : ℚ) : ℚ := toDoubleFrac q.num (q.den : ℤ)

/-- JavaScript multiplication of two binary64 numbers: the exact product
rounded back to binary64. -/
def jsMul (x y : ℚ) : ℚ := toDoubleFrac (x.num * y.num) ((x.den : ℤ) * (y.den : ℤ))

/-- JavaScript addition of two binary64 numbers: the exact sum rounded back
to binary64. -/
def jsAdd (x y : ℚ) : ℚ :=
  toDoubleFrac (x.num * (y.den : ℤ) + y.num * (x.den : ℤ)) ((x.den : ℤ) * (y.den : ℤ))

/-- Numeric value of a digit run, most significant digit first. -/
def digitsVal (ds : List Char) : ℕ :=
  ds.foldl (fun acc c => acc * 10 + (c.toNat - 48)) 0

/-- Model of JavaScript parseInt(x, 10): skip leading whitespace, read an
optional sign and then the longest run of decimal digits; no digits means
NaN (`none`).  The integer read is returned as the binary64 number that
parseInt produces. -/
def jsParseInt (s : String) : Option ℚ :=
  let cs := s.toList.dropWhile (fun c => c.isWhitespace)
  let sr : ℤ × List Char :=
    match cs with
    | '-' :: t => (-1, t)
    | '+' :: t => (1, t)
    | t => (1, t)
  let ds := sr.2.takeWhile (fun c => c.isDigit)
  if ds.isEmpty then none
  else some (toDoubleFrac (sr.1 * (digitsVal ds : ℤ)) 1)

/-! ### Data model (tables of the store) -/

/-- Status column of `carts`: the per-cart state machine. -/
inductive CartStatus
  | active
  | checkedOut
deriving DecidableEq, Repr

/-- Row of the `carts` table. -/
structure Cart where
  cart_id : ℕ
  user_id : ℕ
  status : CartStatus
deriving DecidableEq, Repr

/-- Row of the `cart_items` table.  quantity and total_price are the
binary64 numbers the INSERT at src/index.js line 426 receives. -/
structure CartItem where
  cart_item_id : ℕ
  cart_id : ℕ
  product_id : ℕ
  quantity : ℚ
  total_price : ℚ
deriving DecidableEq, Repr

/-- Row of the `sales` table (sale_date omitted, see header). -/
structure Sale where
  sale_id : ℕ
  user_id : ℕ
  cart_id : ℕ
  total_price : ℚ
deriving DecidableEq, Repr

/-- The database: one list per table plus the auto-increment counters.
products maps product_id to the current catalog price. -/
structure Db where
  products : List (ℕ × ℚ)
  carts : List Cart
  cart_items : List CartItem
  sales : List Sale
  nextCartId : ℕ
  nextCartItemId : ℕ
  nextSaleId : ℕ
deriving DecidableEq, Repr

/-- Response kinds of the handlers: HTTP 400, 404, 403, 500. -/
inductive ApiError
  | validation
  | notFound
  | authorization
  | internal
deriving DecidableEq, Repr

deriving instance DecidableEq for Except

/-! ### The handlers -/

/-- POST /cart (src/index.js lines 368-474).  product_id is `none` when the
body field is absent; a present id of 0 is JavaScript-falsy and fails the
`!product_id` presence check exactly like an absent one.  quantity is the
string image of the body field, `none` when undefined.  Steps, in source
order: presence check (line 376), parseInt and positivity check (380-383),
BEGIN, find the active cart of the user or create one (388-409), catalog
price lookup where a missing product throws and the catch maps it to a 500
after ROLLBACK (412-416, 466-470), total_price = price * quantity in
binary64 (417-418), INSERT of the line (421-427), COMMIT.  The source
creates the cart before the price lookup, but a failing lookup rolls that
creation back, so the two lookups are matched jointly here with the
missing-product case first: the committed effects are identical. -/
def addToCart (uid : ℕ) (product_id : Option ℕ) (quantity : Option String) (s : Db) :
    Except ApiError CartItem × Db :=
  match product_id, quantity with
  | none, _ => (.error .validation, s)
  | some 0, _ => (.error .validation, s)
  | some _, none => (.error .validation, s)
  | some pid, some qstr =>
    match jsParseInt qstr with
    | none => (.error .validation, s)
    | some q =>
      if q < 1 then (.error .validation, s)
      else
        match s.carts.find? (fun c => decide (c.user_id = uid ∧ c.status = CartStatus.active)),
              s.products.find? (fun p => decide (p.1 = pid)) with
        | _, none => (.error .internal, s)
        | some c, some pr =>
          (.ok ⟨s.nextCartItemId, c.cart_id, pid, q, jsMul (toDouble pr.2) q⟩,
            { s with
              cart_items := s.cart_items ++ [⟨s.nextCartItemId, c.cart_id, pid, q,
                jsMul (toDouble pr.2) q⟩],
              nextCartItemId := s.nextCartItemId + 1 })
        | none, some pr =>
          (.ok ⟨s.nextCartItemId, s.nextCartId, pid, q, jsMul (toDouble pr.2) q⟩,
            { s with
              carts := s.carts ++ [⟨s.nextCartId, uid, CartStatus.active⟩],
              nextCartId := s.nextCartId + 1,
              cart_items := s.cart_items ++ [⟨s.nextCartItemId, s.nextCartId, pid, q,
                jsMul (toDouble pr.2) q⟩],
              nextCartItemId := s.nextCartItemId + 1 })

/-- POST /cart/:cart_id (src/index.js lines 477-575).  Same validation as
`addToCart`; the addressed cart must exist, be owned by the caller and be
active (499-510, a 404 otherwise); then price lookup and line insert as in
`addToCart`. -/
def addToSpecificCart (cart_id uid : ℕ) (product_id : Option ℕ) (quantity : Option String)
    (s : Db) : Except ApiError CartItem × Db :=
  match product_id, quantity with
  | none, _ => (.error .validation, s)
  | some 0, _ => (.error .validation, s)
  | some _, none => (.error .validation, s)
  | some pid, some qstr =>
    match jsParseInt qstr with
    | none => (.error .validation, s)
    | some q =>
      if q < 1 then (.error .validation, s)
      else
        match s.carts.find? (fun c =>
          decide (c.cart_id = cart_id ∧ c.user_id = uid ∧ c.status = CartStatus.active)),
          s.products.find? (fun p => decide (p.1 = pid)) with
        | none, _ => (.error .notFound, s)
        | some _, none => (.error .internal, s)
        | some _, some pr =>
          (.ok ⟨s.nextCartItemId, cart_id, pid, q, jsMul (toDouble pr.2) q⟩,
            { s with
              cart_items := s.cart_items ++ [⟨s.nextCartItemId, cart_id, pid, q,
                jsMul (toDouble pr.2) q⟩],
              nextCartItemId := s.nextCartItemId + 1 })

/-- Rows of the ownership-checked SELECT of GET /cart/:cart_id
(src/index.js lines 584-591): cart_items joined to carts on the cart id,
filtered to the addressed cart and owner, and joined to products on the
product id. -/
def cartRows (cart_id uid : ℕ) (s : Db) : List CartItem :=
  (s.carts.filter (fun c => decide (c.cart_id = cart_id ∧ c.user_id = uid))).flatMap
    (fun c => s.cart_items.filter (fun ci =>
      decide (ci.cart_id = c.cart_id) && s.products.any (fun p => decide (p.1 = ci.product_id))))

/-- GET /cart/:cart_id (src/index.js lines 578-605): 404 when the join
yields no rows, the rows otherwise.  Read-only. -/
def getCart (cart_id uid : ℕ) (s : Db) : Except ApiError (List CartItem) :=
  if (cartRows cart_id uid s).isEmpty then .error .notFound
  else .ok (cartRows cart_id uid s)

/-- Total of the checkout (src/index.js line 650): reduce over the rows,
parseFloat of each stored total_price, binary64 addition, initial value 0. -/
def cartTotal (items : List CartItem) : ℚ :=
  items.foldl (fun sum it => jsAdd sum (toDouble it.total_price)) 0

/-- POST /cart/:cart_id/checkout (src/index.js lines 608-693).  BEGIN; the
SELECT ... FOR UPDATE at 618-624 inner-joins carts to cart_items, keeping
only the addressed cart with status active; no rows is a 404 after
ROLLBACK (626-629); an owner mismatch is a 403 after ROLLBACK (643-647);
otherwise the sale row is inserted with the reduced total (649-658), every
cart row with this id is flipped to checked_out (662-668), and the
transaction commits. -/
def checkout (cart_id uid : ℕ) (s : Db) : Except ApiError Sale × Db :=
  match (s.carts.filter (fun c =>
      decide (c.cart_id = cart_id ∧ c.status = CartStatus.active))).flatMap
    (fun c => (s.cart_items.filter (fun ci => decide (ci.cart_id = c.cart_id))).map
      (fun ci => (c, ci))) with
  | [] => (.error .notFound, s)
  | r0 :: rest =>
    if r0.1.user_id ≠ uid then (.error .authorization, s)
    else
      (.ok ⟨s.nextSaleId, uid, r0.1.cart_id, cartTotal ((r0 :: rest).map (fun r => r.2))⟩,
        { s with
          sales := s.sales ++ [⟨s.nextSaleId, uid, r0.1.cart_id,
            cartTotal ((r0 :: rest).map (fun r => r.2))⟩],
          carts := s.carts.map (fun c =>
            if c.cart_id = r0.1.cart_id then ⟨c.cart_id, c.user_id, CartStatus.checkedOut⟩
            else c),
          nextSaleId := s.nextSaleId + 1 })

/-- Modelled from the spec: a catalog price change by the external Catalog
Lookup collaborator (no route in src/ writes to products).  It upserts the
price of one product and touches no other table. -/
def setPrice (pid : ℕ) (price : ℚ) (s : Db) : Db :=
  if s.products.any (fun p => decide (p.1 = pid)) then
    { s with products := s.products.map (fun p => if p.1 = pid then (p.1, price) else p) }
  else
    { s with products := s.products ++ [(pid, price)] }

/-! ### Operations and reachable states -/

/-- One client-visible operation against the store. -/
inductive Op
  | add (uid : ℕ) (pid : Option ℕ) (qty : Option String)
  | addSpecific (cid uid : ℕ) (pid : Option ℕ) (qty : Option String)
  | view (cid uid : ℕ)
  | doCheckout (cid uid : ℕ)
  | price (pid : ℕ) (p : ℚ)

/-- State transition of one operation (reads leave the state unchanged). -/
def Op.run : Op → Db → Db
  | .add uid pid qty, s => (addToCart uid pid qty s).2
  | .addSpecific cid uid pid qty, s => (addToSpecificCart cid uid pid qty s).2
  | .view _ _, s => s
  | .doCheckout cid uid, s => (checkout cid uid s).2
  | .price pid p, s => setPrice pid p s

/-- The empty store. -/
def initDb : Db := ⟨[], [], [], [], 1, 1, 1⟩

/-- States reachable from the empty store by runs of operations. -/
inductive Reachable : Db → Prop
  | init : Reachable initDb
  | step (op : Op) {s : Db} : Reachable s → Reachable (op.run s)

/-- Runs a list of operations in order. -/
def runOps (ops : List Op) (s : Db) : Db :=
  ops.foldl (fun t op => op.run t) s

/-! ### Derived predicates -/

/-- Number of active carts a user owns. -/
def activeCartCount (s : Db) (uid : ℕ) : ℕ :=
  s.carts.countP (fun c => decide (c.user_id = uid ∧ c.status = CartStatus.active))

/-- The core invariant: at most one active cart per user. -/
def AtMostOneActive (s : Db) : Prop := ∀ uid, activeCartCount s uid ≤ 1

/-- Structural well-formedness provided by the auto-increment key: every
stored cart id is below the next key. -/
def CartIdsBelow (s : Db) : Prop := ∀ c ∈ s.carts, c.cart_id < s.nextCartId

/-- The cart id is in use and every cart row carrying it is checked out. -/
def TerminalCart (cid : ℕ) (s : Db) : Prop :=
  cid < s.nextCartId ∧ ∀ c ∈ s.carts, c.cart_id = cid → c.status = CartStatus.checkedOut

/-! ### Concrete stores used by witnesses and counterexamples -/

/-- Store with product 3 priced 12 and an active cart of user 7 holding one
line of quantity 2, total 24. -/
def db1 : Db := ⟨[(3, 12)], [⟨5, 7, .active⟩], [⟨1, 5, 3, 2, 24⟩], [], 6, 2, 1⟩

/-- Store where user 2 owns an active cart with no lines. -/
def dbEmptyOther : Db := ⟨[], [⟨1, 2, .active⟩], [], [], 2, 1, 1⟩

/-- Store where user 1 owns an active cart with no lines. -/
def dbEmptyOwn : Db := ⟨[], [⟨1, 1, .active⟩], [], [], 2, 1, 1⟩

/-- Store with one product priced 10 and nothing else. -/
def dbP10 : Db := ⟨[(1, 10)], [], [], [], 1, 1, 1⟩

/-- Store with one product priced 0.10 and nothing else. -/
def dbP01 : Db := ⟨[(1, mkRat 1 10)], [], [], [], 1, 1, 1⟩

/-! ### Rollback lemmas: every failing handler returns the input store -/

theorem checkout_error_state {cid uid : ℕ} {s : Db} {e : ApiError} {s2 : Db}
    (h : checkout cid uid s = (.error e, s2)) : s2 = s := by
  unfold checkout at h
  repeat' split at h
  all_goals injection h with h1 h2
  all_goals first
    | exact h2.symm
    | injection h1

theorem addToCart_error_state {uid : ℕ} {pid : Option ℕ} {qty : Option String} {s : Db}
    {e : ApiError} {s2 : Db}
    (h : addToCart uid pid qty s = (.error e, s2)) : s2 = s := by
  unfold addToCart at h
  repeat' split at h
  all_goals injection h with h1 h2
  all_goals first
    | exact h2.symm
    | injection h1

theorem addToSpecificCart_error_state {cid uid : ℕ} {pid : Option ℕ} {qty : Option String}
    {s : Db} {e : ApiError} {s2 : Db}
    (h : addToSpecificCart cid uid pid qty s = (.error e, s2)) : s2 = s := by
  unfold addToSpecificCart at h
  repeat' split at h
  all_goals injection h with h1 h2
  all_goals first
    | exact h2.symm
    | injection h1

/-- Membership fact extracted from a singleton filter result. -/
theorem filter_singleton_pred {α : Type} {p : α → Bool} {l : List α} {c : α}
    (h : l.filter p = [c]) : p c = true :=
  (List.mem_filter.mp (h ▸ List.mem_singleton.mpr rfl)).2

/-- C1.  For every cart that exists, is active, is owned by the caller and
has at least one line, checkout succeeds: it appends exactly one Sale row
referencing the caller and the cart whose total_price is the reduction of
the stored line totals (`cartTotal`, which reads no catalog price), and it
sets the status of that cart to checked_out.  The singleton-filter
hypothesis states existence together with the primary-key uniqueness of
cart_id. -/
theorem checkout_success_spec (s : Db) (cid uid : ℕ) (c : Cart)
    (hfind : s.carts.filter
      (fun c' => decide (c'.cart_id = cid ∧ c'.status = CartStatus.active)) = [c])
    (hown : c.user_id = uid)
    (hitems : s.cart_items.filter (fun ci => decide (ci.cart_id = cid)) ≠ []) :
    checkout cid uid s =
      (.ok ⟨s.nextSaleId, uid, cid,
          cartTotal (s.cart_items.filter (fun ci => decide (ci.cart_id = cid)))⟩,
        { s with
          sales := s.sales ++ [⟨s.nextSaleId, uid, cid,
            cartTotal (s.cart_items.filter (fun ci => decide (ci.cart_id = cid)))⟩],
          carts := s.carts.map (fun c' =>
            if c'.cart_id = cid then ⟨c'.cart_id, c'.user_id, CartStatus.checkedOut⟩
            else c'),
          nextSaleId := s.nextSaleId + 1 }) := by
  have hc := filter_singleton_pred hfind
  rw [decide_eq_true_eq] at hc
  obtain ⟨i, tl, hcons⟩ := List.exists_cons_of_ne_nil hitems
  unfold checkout
  rw [hfind]
  simp only [List.flatMap_cons, List.flatMap_nil, List.append_nil, hc.1, hcons,
    List.map_cons]
  try dsimp only
  rw [if_neg (by simp [hown])]
  simp [hown, List.map_map, Function.comp, hcons]

/-- C1 witness: the concrete store db1 checks out to a sale of 24 for user
7 on cart 5 and the cart flips to checked_out. -/
theorem checkout_success_witness :
    checkout 5 7 db1 =
      (.ok ⟨1, 7, 5, 24⟩,
        ⟨[(3, 12)], [⟨5, 7, .checkedOut⟩], [⟨1, 5, 3, 2, 24⟩], [⟨1, 7, 5, 24⟩], 6, 2, 2⟩) := by
  have h := checkout_success_spec db1 5 7 ⟨5, 7, .active⟩ (by decide) rfl (by decide)
  rw [h]
  decide

/-- C2 counterexample: user 2 owns an active cart with no lines; the
checkout call of user 1 on it is an ownership-mismatch failure, yet its
result is notFound (HTTP 404) and not the AuthorizationError the claim
promises, because the inner join with cart_items produces no rows for a
cart with zero lines and the 404 fires before the ownership check.  The
rollback itself does hold here (the returned store is the input store),
so the error-kind clause is the false part of the claim. -/
theorem checkout_wrong_owner_counterexample :
    (⟨1, 2, CartStatus.active⟩ : Cart) ∈ dbEmptyOther.carts ∧ (2 : ℕ) ≠ 1 ∧
      checkout 1 1 dbEmptyOther = (.error ApiError.notFound, dbEmptyOther) ∧
      (checkout 1 1 dbEmptyOther).1 ≠ .error ApiError.authorization := by
  decide

/-- C2 amended: every failing checkout call rolls the whole transaction
back — the returned store is the input store, so no Sale row is inserted,
the cart status stays as it was (active stays active) and its lines are
unchanged — and a checkout on an active cart that has at least one line
and is owned by a different user fails with AuthorizationError. -/
theorem checkout_rollback_spec :
    (∀ (cid uid : ℕ) (s : Db) (e : ApiError) (s2 : Db),
        checkout cid uid s = (.error e, s2) →
        s2 = s ∧ s2.sales = s.sales ∧ s2.carts = s.carts ∧ s2.cart_items = s.cart_items) ∧
    (∀ (cid uid : ℕ) (s : Db) (c : Cart),
        s.carts.filter
          (fun c' => decide (c'.cart_id = cid ∧ c'.status = CartStatus.active)) = [c] →
        c.user_id ≠ uid →
        s.cart_items.filter (fun ci => decide (ci.cart_id = cid)) ≠ [] →
        checkout cid uid s = (.error ApiError.authorization, s)) := by
  constructor
  · intro cid uid s e s2 h
    have h2 := checkout_error_state h
    exact ⟨h2, by rw [h2], by rw [h2], by rw [h2]⟩
  · intro cid uid s c hfind hown hitems
    have hc := filter_singleton_pred hfind
    rw [decide_eq_true_eq] at hc
    obtain ⟨i, tl, hcons⟩ := List.exists_cons_of_ne_nil hitems
    unfold checkout
    rw [hfind]
    simp only [List.flatMap_cons, List.flatMap_nil, List.append_nil, hc.1, hcons,
      List.map_cons]
    try dsimp only
    rw [if_pos hown]

/-- C2 witness: a concrete ownership-mismatch checkout on a nonempty cart
returns AuthorizationError with the store unchanged, and a concrete failed
checkout returns the input store, its sales, carts and lines untouched. -/
theorem checkout_rollback_witness :
    checkout 5 8 db1 = (.error ApiError.authorization, db1) ∧
      ((checkout 9 7 db1).2 = db1 ∧ (checkout 9 7 db1).2.sales = db1.sales ∧
        (checkout 9 7 db1).2.carts = db1.carts ∧
        (checkout 9 7 db1).2.cart_items = db1.cart_items) :=
  ⟨checkout_rollback_spec.2 5 8 db1 ⟨5, 7, .active⟩ (by decide) (by decide) (by decide),
   checkout_rollback_spec.1 9 7 db1 ApiError.notFound (checkout 9 7 db1).2 (by decide)⟩

/-- C10.  A failing add-to-cart call rolls the whole transaction back: the
returned store is the input store, so a cart created lazily before the
failure is discarded and no empty cart persists. -/
theorem addToCart_failure_rollback (uid : ℕ) (pid : Option ℕ) (qty : Option String)
    (s : Db) (e : ApiError) (s2 : Db)
    (h : addToCart uid pid qty s = (.error e, s2)) : s2 = s :=
  addToCart_error_state h

/-- C10 witness: user 1 has no cart; adding a nonexistent product fails and
the store, in particular its cart table, is exactly the input store. -/
theorem addToCart_failure_rollback_witness :
    (addToCart 1 (some 99) (some "2") dbP10).2 = dbP10 ∧
      (addToCart 1 (some 99) (some "2") dbP10).2.carts = [] :=
  have h := addToCart_failure_rollback 1 (some 99) (some "2") dbP10 ApiError.internal
    (addToCart 1 (some 99) (some "2") dbP10).2 (by decide)
  ⟨h, by rw [h]; rfl⟩

/-- Characterization of the empty checkout join: no row pairs an active
cart carrying the requested id with a line of that cart. -/
theorem checkout_rows_nil_iff (cid : ℕ) (s : Db) :
    ((s.carts.filter (fun c => decide (c.cart_id = cid ∧ c.status = CartStatus.active))).flatMap
      (fun c => (s.cart_items.filter (fun ci => decide (ci.cart_id = c.cart_id))).map
        (fun ci => (c, ci))) = []) ↔
      ¬ ∃ c ∈ s.carts, c.cart_id = cid ∧ c.status = CartStatus.active ∧
          ∃ ci ∈ s.cart_items, ci.cart_id = cid := by
  rw [List.flatMap_eq_nil_iff]
  constructor
  · rintro h ⟨c, hcmem, hcid, hact, ci, hcimem, hcid2⟩
    have hcf : c ∈ s.carts.filter
        (fun c => decide (c.cart_id = cid ∧ c.status = CartStatus.active)) :=
      List.mem_filter.mpr ⟨hcmem, by simp [hcid, hact]⟩
    have h2 := h c hcf
    rw [List.map_eq_nil_iff, List.filter_eq_nil_iff] at h2
    exact h2 ci hcimem (by simp [hcid2, hcid])
  · intro h c hcf
    rw [List.map_eq_nil_iff, List.filter_eq_nil_iff]
    intro ci hcimem hcieq
    obtain ⟨hcmem, hcp⟩ := List.mem_filter.mp hcf
    rw [decide_eq_true_eq] at hcp
    rw [decide_eq_true_eq] at hcieq
    exact h ⟨c, hcmem, hcp.1, hcp.2, ci, hcimem, hcieq.trans hcp.1⟩

/-- C4 counterexample: user 1 owns cart 1, it is active and has zero lines;
checkout by the owner returns notFound instead of succeeding with a
zero-total sale, because the inner join with cart_items yields no rows. -/
theorem checkout_empty_cart_counterexample :
    (⟨1, 1, CartStatus.active⟩ : Cart) ∈ dbEmptyOwn.carts ∧
      (checkout 1 1 dbEmptyOwn).1 = .error ApiError.notFound := by
  decide

/-- C4 amended: checkout fails with NotFoundError exactly when no row joins
an active cart with the requested id to a line of that cart — the cart
never existed, is already checked out, or has zero lines.  An existing
active empty cart is therefore rejected with NotFoundError rather than
checked out with a zero total. -/
theorem checkout_notFound_iff (cid uid : ℕ) (s : Db) :
    (checkout cid uid s).1 = .error ApiError.notFound ↔
      ¬ ∃ c ∈ s.carts, c.cart_id = cid ∧ c.status = CartStatus.active ∧
          ∃ ci ∈ s.cart_items, ci.cart_id = cid := by
  rw [← checkout_rows_nil_iff cid s]
  unfold checkout
  set R := (s.carts.filter (fun c => decide (c.cart_id = cid ∧ c.status = CartStatus.active))).flatMap
      (fun c => (s.cart_items.filter (fun ci => decide (ci.cart_id = c.cart_id))).map
        (fun ci => (c, ci))) with hR
  clear_value R
  cases R with
  | nil => simp
  | cons r0 rest =>
    constructor
    · intro habs
      dsimp only at habs
      split at habs
      · simp at habs
      · simp at habs
    · intro habs
      simp at habs

/-- Characterization of the empty ownership-checked join of GET /cart: no
line of the addressed cart is visible to the caller. -/
theorem cartRows_nil_iff (cid uid : ℕ) (s : Db) :
    cartRows cid uid s = [] ↔
      ¬ ∃ c ∈ s.carts, c.cart_id = cid ∧ c.user_id = uid ∧
          ∃ ci ∈ s.cart_items, ci.cart_id = cid ∧ ∃ p ∈ s.products, p.1 = ci.product_id := by
  unfold cartRows
  rw [List.flatMap_eq_nil_iff]
  constructor
  · rintro h ⟨c, hcmem, hcid, huid, ci, hcimem, hcid2, p, hpmem, hp⟩
    have hcf : c ∈ s.carts.filter (fun c => decide (c.cart_id = cid ∧ c.user_id = uid)) :=
      List.mem_filter.mpr ⟨hcmem, by simp [hcid, huid]⟩
    have h2 := h c hcf
    rw [List.filter_eq_nil_iff] at h2
    refine h2 ci hcimem ?_
    rw [Bool.and_eq_true, decide_eq_true_eq, List.any_eq_true]
    exact ⟨by rw [hcid2, hcid], p, hpmem, by simp [hp]⟩
  · intro h c hcf
    rw [List.filter_eq_nil_iff]
    intro ci hcimem hpred
    obtain ⟨hcmem, hcp⟩ := List.mem_filter.mp hcf
    rw [decide_eq_true_eq] at hcp
    rw [Bool.and_eq_true, decide_eq_true_eq, List.any_eq_true] at hpred
    obtain ⟨hcieq, p, hpmem, hpeq⟩ := hpred
    rw [decide_eq_true_eq] at hpeq
    exact h ⟨c, hcmem, hcp.1, hcp.2, ci, hcimem, hcieq.trans hcp.1, p, hpmem, hpeq⟩

/-- C8 counterexample: user 1 owns cart 1 and it has zero lines; the claim
says the owner read succeeds, but GET /cart returns notFound because the
join through cart_items yields no rows for an empty cart. -/
theorem getCart_empty_cart_counterexample :
    (⟨1, 1, CartStatus.active⟩ : Cart) ∈ dbEmptyOwn.carts ∧
      getCart 1 1 dbEmptyOwn = .error ApiError.notFound := by
  decide

/-- C8 amended: get_cart_for_owner fails with NotFoundError exactly when no
line of the addressed cart is visible to the caller — the cart does not
exist, is not owned by the caller, or has no lines (whose product is in
the catalog); ownership failure, nonexistence and emptiness are
indistinguishable.  Whenever it does not fail it returns the joined
lines. -/
theorem getCart_notFound_iff :
    (∀ (cid uid : ℕ) (s : Db),
        getCart cid uid s = .error ApiError.notFound ↔
          ¬ ∃ c ∈ s.carts, c.cart_id = cid ∧ c.user_id = uid ∧
              ∃ ci ∈ s.cart_items, ci.cart_id = cid ∧
                ∃ p ∈ s.products, p.1 = ci.product_id) ∧
    (∀ (cid uid : ℕ) (s : Db),
        getCart cid uid s ≠ .error ApiError.notFound →
        getCart cid uid s = .ok (cartRows cid uid s)) := by
  constructor
  · intro cid uid s
    unfold getCart
    split
    · next hc =>
      rw [List.isEmpty_iff] at hc
      exact ⟨fun _ => (cartRows_nil_iff cid uid s).mp hc, fun _ => rfl⟩
    · next hc =>
      have hne : cartRows cid uid s ≠ [] := by
        intro hnil
        rw [hnil] at hc
        simp at hc
      constructor
      · intro habs
        exact absurd habs (by simp)
      · intro hnot
        exact absurd ((cartRows_nil_iff cid uid s).mpr hnot) hne
  · intro cid uid s
    unfold getCart
    split
    · intro hne
      exact absurd rfl hne
    · intro _
      rfl

/-- C8 witness: the owner of the nonempty cart 5 reads its lines, and a
nonexistent cart yields notFound. -/
theorem getCart_witness :
    getCart 5 7 db1 = .ok (cartRows 5 7 db1) ∧
      getCart 9 9 db1 = .error ApiError.notFound :=
  ⟨getCart_notFound_iff.2 5 7 db1 (by decide),
   (getCart_notFound_iff.1 9 9 db1).mpr (by decide)⟩

/-! ### How any operation can change the carts table -/

/-- Shape of the carts table after one operation: unchanged, extended by
one freshly-keyed active cart of a user who had no active cart, or mapped
by the checked_out status flip of one cart id.  nextCartId moves in step. -/
theorem run_carts_shape (op : Op) (s : Db) :
    ((op.run s).carts = s.carts ∧ (op.run s).nextCartId = s.nextCartId)
    ∨ (∃ uid0, (op.run s).carts = s.carts ++ [⟨s.nextCartId, uid0, CartStatus.active⟩]
        ∧ (op.run s).nextCartId = s.nextCartId + 1
        ∧ s.carts.find? (fun c => decide (c.user_id = uid0 ∧ c.status = CartStatus.active))
            = none)
    ∨ (∃ cid0, (op.run s).carts = s.carts.map (fun c =>
          if c.cart_id = cid0 then ⟨c.cart_id, c.user_id, CartStatus.checkedOut⟩ else c)
        ∧ (op.run s).nextCartId = s.nextCartId) := by
  cases op with
  | add uid pid qty =>
    dsimp only [Op.run]
    unfold addToCart
    repeat' split
    all_goals first
      | exact Or.inl ⟨rfl, rfl⟩
      | (rename_i hfind _
         exact Or.inr (Or.inl ⟨uid, rfl, rfl, hfind⟩))
  | addSpecific cid uid pid qty =>
    refine Or.inl ?_
    dsimp only [Op.run]
    unfold addToSpecificCart
    repeat' split
    all_goals exact ⟨rfl, rfl⟩
  | view cid uid => exact Or.inl ⟨rfl, rfl⟩
  | doCheckout cid uid =>
    dsimp only [Op.run]
    unfold checkout
    split
    · exact Or.inl ⟨rfl, rfl⟩
    · next r0 rest _ =>
      split
      · exact Or.inl ⟨rfl, rfl⟩
      · exact Or.inr (Or.inr ⟨r0.1.cart_id, rfl, rfl⟩)
  | price pid p =>
    refine Or.inl ?_
    dsimp only [Op.run]
    unfold setPrice
    split
    all_goals exact ⟨rfl, rfl⟩

/-- Preservation of the at-most-one-active-cart invariant by any single
operation. -/
theorem atMostOne_preserved (op : Op) (s : Db) (h : AtMostOneActive s) :
    AtMostOneActive (op.run s) := by
  rcases run_carts_shape op s with ⟨hc, _⟩ | ⟨uid0, hc, _, hfind⟩ | ⟨cid0, hc, _⟩
  · intro u
    unfold activeCartCount
    rw [hc]
    exact h u
  · intro u
    unfold activeCartCount
    rw [hc, List.countP_append]
    by_cases hu : u = uid0
    · subst hu
      have h0 : s.carts.countP
          (fun c => decide (c.user_id = u ∧ c.status = CartStatus.active)) = 0 := by
        rw [List.countP_eq_zero]
        intro c hcmem
        simpa using List.find?_eq_none.mp hfind c hcmem
      rw [h0]
      simp [List.countP_cons]
    · have h1 : List.countP
          (fun c : Cart => decide (c.user_id = u ∧ c.status = CartStatus.active))
          [⟨s.nextCartId, uid0, CartStatus.active⟩] = 0 := by
        simp [List.countP_cons, Ne.symm hu]
      rw [h1, Nat.add_zero]
      exact h u
  · intro u
    unfold activeCartCount
    rw [hc, List.countP_map]
    refine le_trans (List.countP_mono_left ?_) (h u)
    intro c hcmem hpc
    by_cases hcid : c.cart_id = cid0
    · exfalso
      simp [Function.comp, hcid] at hpc
    · simpa [Function.comp, hcid] using hpc

/-- C3.  Every operation preserves the at-most-one-active-cart-per-user
invariant — add_to_cart reuses the existing active cart and creates one
only when none is active, and the only status transition is active to
checked_out — and therefore every reachable state satisfies it. -/
theorem activeCart_invariant :
    (∀ (op : Op) (s : Db), AtMostOneActive s → AtMostOneActive (op.run s)) ∧
    (∀ s : Db, Reachable s → AtMostOneActive s) := by
  constructor
  · exact atMostOne_preserved
  · intro s hr
    induction hr with
    | init =>
      intro u
      simp [activeCartCount, initDb]
    | step op hr ih => exact atMostOne_preserved op _ ih

/-- C3 witness: the invariant holds in the concrete reachable store that
prices product 1, and is preserved by the add operation that lazily
creates the first cart of user 1 there. -/
theorem activeCart_invariant_witness :
    AtMostOneActive (Op.run (.add 1 (some 1) (some "1")) (Op.run (.price 1 10) initDb)) ∧
      AtMostOneActive (Op.run (.price 1 10) initDb) :=
  have h : AtMostOneActive (Op.run (.price 1 10) initDb) :=
    activeCart_invariant.2 _ (Reachable.step _ Reachable.init)
  ⟨activeCart_invariant.1 _ _ h, h⟩

/-- Auto-increment safety: stored cart ids stay below the next key. -/
theorem cartIdsBelow_preserved (op : Op) (s : Db) (h : CartIdsBelow s) :
    CartIdsBelow (op.run s) := by
  rcases run_carts_shape op s with ⟨hc, hn⟩ | ⟨uid0, hc, hn, _⟩ | ⟨cid0, hc, hn⟩
  · intro c hm
    rw [hc] at hm
    rw [hn]
    exact h c hm
  · intro c hm
    rw [hc] at hm
    rw [hn]
    rcases List.mem_append.mp hm with hm | hm
    · exact lt_trans (h c hm) (Nat.lt_succ_self _)
    · rw [List.mem_singleton] at hm
      subst hm
      exact Nat.lt_succ_self _
  · intro c hm
    rw [hc] at hm
    rw [hn]
    obtain ⟨c0, hc0mem, hc0eq⟩ := List.mem_map.mp hm
    have hid : c.cart_id = c0.cart_id := by
      rw [← hc0eq]
      by_cases hh : c0.cart_id = cid0 <;> simp [hh]
    rw [hid]
    exact h c0 hc0mem

/-- Every reachable state has its cart ids below the next key. -/
theorem reachable_cartIdsBelow (s : Db) (h : Reachable s) : CartIdsBelow s := by
  induction h with
  | init =>
    intro c hm
    simp [initDb] at hm
  | step op hr ih => exact cartIdsBelow_preserved op _ ih

/-- Terminality is preserved by every operation: a fully checked-out cart
id is never returned to active, and a freshly created cart always gets a
strictly larger id. -/
theorem terminal_preserved (op : Op) (s : Db) (cid : ℕ) (h : TerminalCart cid s) :
    TerminalCart cid (op.run s) := by
  obtain ⟨hlt, hall⟩ := h
  rcases run_carts_shape op s with ⟨hc, hn⟩ | ⟨uid0, hc, hn, _⟩ | ⟨cid0, hc, hn⟩
  · refine ⟨hn ▸ hlt, fun c hm hceq => ?_⟩
    rw [hc] at hm
    exact hall c hm hceq
  · constructor
    · rw [hn]
      omega
    · intro c hm hceq
      rw [hc] at hm
      rcases List.mem_append.mp hm with hm | hm
      · exact hall c hm hceq
      · rw [List.mem_singleton] at hm
        subst hm
        simp only [] at hceq
        omega
  · constructor
    · rw [hn]
      exact hlt
    · intro c hm hceq
      rw [hc] at hm
      obtain ⟨c0, hc0mem, hc0eq⟩ := List.mem_map.mp hm
      by_cases hh : c0.cart_id = cid0
      · rw [← hc0eq]
        simp [hh]
      · rw [← hc0eq] at hceq ⊢
        simp only [hh, if_neg, ite_false] at hceq ⊢
        exact hall c0 hc0mem hceq

/-- Terminality is preserved by whole runs of operations. -/
theorem runOps_terminal (ops : List Op) (t : Db) (cid : ℕ) (h : TerminalCart cid t) :
    TerminalCart cid (runOps ops t) := by
  induction ops generalizing t with
  | nil => exact h
  | cons op ops ih => exact ih _ (terminal_preserved op t cid h)

/-- A successful checkout leaves the addressed cart id terminal. -/
theorem checkout_ok_terminal (cid uid : ℕ) (s : Db) (sale : Sale) (hb : CartIdsBelow s)
    (h : (checkout cid uid s).1 = .ok sale) : TerminalCart cid (checkout cid uid s).2 := by
  unfold checkout at h ⊢
  split at h
  · simp at h
  · next r0 rest heq =>
    split at h
    · simp at h
    · next hcond =>
      rw [if_neg hcond]
      have hr0 : r0 ∈ (s.carts.filter (fun c =>
          decide (c.cart_id = cid ∧ c.status = CartStatus.active))).flatMap
            (fun c => (s.cart_items.filter (fun ci => decide (ci.cart_id = c.cart_id))).map
              (fun ci => (c, ci))) := by
        rw [heq]
        exact List.mem_cons_self _ _
      obtain ⟨c, hcf, hmap⟩ := List.mem_flatMap.mp hr0
      obtain ⟨ci, -, rfl⟩ := List.mem_map.mp hmap
      obtain ⟨hcmem, hcp⟩ := List.mem_filter.mp hcf
      rw [decide_eq_true_eq] at hcp
      constructor
      · exact hcp.1 ▸ hb c hcmem
      · intro c' hm hceq
        obtain ⟨c0, hc0mem, hc0eq⟩ := List.mem_map.mp hm
        dsimp only at hc0eq
        by_cases hid : c0.cart_id = c.cart_id
        · rw [← hc0eq]
          simp [hid]
        · exfalso
          rw [← hc0eq] at hceq
          rw [if_neg hid] at hceq
          exact hid (hceq.trans hcp.1.symm)

/-- A checkout on a terminal cart id finds no active cart and fails with
notFound. -/
theorem terminal_checkout_notFound (cid uid : ℕ) (s : Db) (h : TerminalCart cid s) :
    (checkout cid uid s).1 = .error ApiError.notFound := by
  have hfe : s.carts.filter
      (fun c => decide (c.cart_id = cid ∧ c.status = CartStatus.active)) = [] := by
    rw [List.filter_eq_nil_iff]
    intro c hcmem hp
    rw [decide_eq_true_eq] at hp
    have hstat := h.2 c hcmem hp.1
    rw [hstat] at hp
    simpa using hp.2
  unfold checkout
  rw [hfe]
  rfl

/-- C5.  The per-cart status machine is terminal: no operation returns a
fully checked-out cart id to active, and after a checkout succeeds on a
reachable store, every later checkout of the same cart — after any run of
further operations, by any caller — fails with the notFound outcome, so at
most one checkout of a given cart ever succeeds. -/
theorem checkout_terminal_spec :
    (∀ (op : Op) (s : Db) (cid : ℕ), TerminalCart cid s → TerminalCart cid (op.run s)) ∧
    (∀ (s : Db) (cid uid : ℕ) (sale : Sale), Reachable s →
      (checkout cid uid s).1 = .ok sale →
      ∀ (ops : List Op) (uid2 : ℕ),
        (checkout cid uid2 (runOps ops (checkout cid uid s).2)).1 =
          .error ApiError.notFound) := by
  constructor
  · intro op s cid h
    exact terminal_preserved op s cid h
  · intro s cid uid sale hr h ops uid2
    have hb := reachable_cartIdsBelow s hr
    have ht := checkout_ok_terminal cid uid s sale hb h
    exact terminal_checkout_notFound cid uid2 _ (runOps_terminal ops _ cid ht)

/-- Concrete reachable store: price product 3 at 12, then user 7 adds two
of it, creating cart 1 with one line of total 24. -/
def wReach : Db := Op.run (.add 7 (some 3) (some "2")) (Op.run (.price 3 12) initDb)

/-- C5 witness: after the concrete successful checkout of cart 1, a second
checkout attempted after a further add operation fails with notFound, and
a read operation keeps the cart id terminal. -/
theorem checkout_terminal_witness :
    (checkout 1 7 (runOps [Op.add 7 (some 3) (some "2")] (checkout 1 7 wReach).2)).1 =
        .error ApiError.notFound ∧
      TerminalCart 1 (Op.run (.view 1 7) (checkout 1 7 wReach).2) :=
  ⟨checkout_terminal_spec.2 wReach 1 7 ⟨1, 7, 1, 24⟩
      (Reachable.step _ (Reachable.step _ Reachable.init)) (by decide)
      [Op.add 7 (some 3) (some "2")] 7,
   checkout_terminal_spec.1 (.view 1 7) _ 1 ⟨by decide, by decide⟩⟩

/-- Successful add-to-cart stores the snapshot total: the binary64 product
of the catalog price found at insertion time and the parsed quantity, and
appends exactly that line. -/
theorem addToCart_ok_spec (uid pid : ℕ) (qstr : String) (q pr : ℚ) (item : CartItem)
    (s s2 : Db) (hparse : jsParseInt qstr = some q)
    (hfind : s.products.find? (fun p => decide (p.1 = pid)) = some (pid, pr))
    (h : addToCart uid (some pid) (some qstr) s = (.ok item, s2)) :
    item.total_price = jsMul (toDouble pr) q ∧ s2.cart_items = s.cart_items ++ [item] := by
  cases pid with
  | zero => simp [addToCart] at h
  | succ n =>
    by_cases hq : q < 1
    · simp [addToCart, hparse, hq] at h
    · cases hcf : s.carts.find?
          (fun c => decide (c.user_id = uid ∧ c.status = CartStatus.active)) with
      | some c =>
        simp only [addToCart, hparse, hq, if_false, hcf, hfind, Prod.mk.injEq,
          Except.ok.injEq] at h
        obtain ⟨h1, h2⟩ := h
        subst h1 h2
        exact ⟨rfl, rfl⟩
      | none =>
        simp only [addToCart, hparse, hq, if_false, hcf, hfind, Prod.mk.injEq,
          Except.ok.injEq] at h
        obtain ⟨h1, h2⟩ := h
        subst h1 h2
        exact ⟨rfl, rfl⟩

/-- C6.  Snapshot pricing: a catalog price change touches no stored line
total and no sale total (and no cart), and a successful add stores on the
new line the product, in the binary64 arithmetic of the handler, of the
catalog unit price found at the moment of insertion with the parsed
quantity — later catalog changes therefore leave it unchanged. -/
theorem snapshot_pricing :
    (∀ (pid : ℕ) (pr : ℚ) (s : Db),
        (setPrice pid pr s).cart_items = s.cart_items ∧
        (setPrice pid pr s).sales = s.sales ∧
        (setPrice pid pr s).carts = s.carts) ∧
    (∀ (uid pid : ℕ) (qstr : String) (q pr : ℚ) (item : CartItem) (s s2 : Db),
        jsParseInt qstr = some q →
        s.products.find? (fun p => decide (p.1 = pid)) = some (pid, pr) →
        addToCart uid (some pid) (some qstr) s = (.ok item, s2) →
        item.total_price = jsMul (toDouble pr) q ∧
        s2.cart_items = s.cart_items ++ [item]) := by
  constructor
  · intro pid pr s
    unfold setPrice
    split
    · exact ⟨rfl, rfl, rfl⟩
    · exact ⟨rfl, rfl, rfl⟩
  · intro uid pid qstr q pr item s s2 hparse hfind h
    exact addToCart_ok_spec uid pid qstr q pr item s s2 hparse hfind h

/-- Store with product 2 priced 10 and an empty active cart of user 7. -/
def w6 : Db := ⟨[(2, 10)], [⟨5, 7, .active⟩], [], [], 6, 1, 1⟩

/-- Line stored by the concrete snapshot-pricing run: quantity 3 at price
10 gives the exact total 30. -/
def w6item : CartItem := ⟨1, 5, 2, 3, 30⟩

/-- Store after the concrete add of three units of product 2. -/
def w6after : Db := ⟨[(2, 10)], [⟨5, 7, .active⟩], [⟨1, 5, 2, 3, 30⟩], [], 6, 2, 1⟩

/-- C6 witness: the spec scenario — price 10, quantity 3 stores the line
total 30, and dropping the catalog price to 5 afterwards changes no stored
line and no sale. -/
theorem snapshot_pricing_witness :
    w6item.total_price = 30 ∧
      (setPrice 2 5 w6after).cart_items = w6after.cart_items ∧
      (setPrice 2 5 w6after).sales = w6after.sales :=
  ⟨by
    have h := snapshot_pricing.2 7 2 "3" 3 10 w6item w6 w6after (by decide) (by decide)
      (by decide)
    exact h.1.trans (by decide),
   (snapshot_pricing.1 2 5 w6after).1,
   (snapshot_pricing.1 2 5 w6after).2.1⟩

/-- C7 counterexample: with product 1 priced 10 in the catalog, the
quantity string 3.7 is not a positive integer yet the add succeeds with
parseInt truncating it to 3 (total 30), and an add of the nonexistent
product 2 fails with the generic internal error (HTTP 500), not with
notFound. -/
theorem addLine_errors_counterexample :
    (addToCart 1 (some 1) (some "3.7") dbP10).1 = .ok ⟨1, 1, 1, 3, 30⟩ ∧
      (addToCart 1 (some 2) (some "2") dbP10).1 = .error ApiError.internal := by
  decide

/-- C7 amended: add_line rejects with ValidationError, inserting nothing,
exactly those quantities whose parseInt base-10 image is NaN or below one
— fractional strings such as 3.7 are truncated to their leading integer
run and accepted — and a missing product makes the call fail with the
generic internal error (HTTP 500), again inserting nothing, rather than
with NotFoundError. -/
theorem addLine_validation_spec :
    (∀ (uid : ℕ) (pid : Option ℕ) (qstr : String) (s : Db),
        (jsParseInt qstr = none ∨ ∃ q, jsParseInt qstr = some q ∧ q < 1) →
        addToCart uid pid (some qstr) s = (.error ApiError.validation, s)) ∧
    (∀ (uid pid : ℕ) (qstr : String) (q : ℚ) (s : Db),
        pid ≠ 0 → jsParseInt qstr = some q → ¬ q < 1 →
        s.products.find? (fun p => decide (p.1 = pid)) = none →
        addToCart uid (some pid) (some qstr) s = (.error ApiError.internal, s)) := by
  constructor
  · intro uid pid qstr s hbad
    rcases pid with _ | p
    · rfl
    · rcases p with _ | n
      · rfl
      · rcases hbad with hnone | ⟨q, hq, hlt⟩
        · simp [addToCart, hnone]
        · simp [addToCart, hq, hlt]
  · intro uid pid qstr q s hpid hparse hq hfind
    rcases pid with _ | n
    · exact absurd rfl hpid
    · cases hcf : s.carts.find?
          (fun c => decide (c.user_id = uid ∧ c.status = CartStatus.active)) with
      | some c => simp [addToCart, hparse, hq, hcf, hfind]
      | none => simp [addToCart, hparse, hq, hcf, hfind]

/-- C7 witness: a digitless quantity is rejected with ValidationError and
no insert, and a missing product yields the internal error with no
insert. -/
theorem addLine_validation_witness :
    addToCart 1 (some 1) (some "abc") dbP10 = (.error ApiError.validation, dbP10) ∧
      addToCart 1 (some 9) (some "2") dbP10 = (.error ApiError.internal, dbP10) :=
  ⟨addLine_validation_spec.1 1 (some 1) "abc" dbP10 (Or.inl (by decide)),
   addLine_validation_spec.2 1 9 "2" 2 dbP10 (by decide) (by decide) (by decide) (by decide)⟩

/-- C9 counterexample: with the catalog price 0.10 and quantity 3, the
stored line total is the binary64 value 5404319552844596 / 2 ^ 54
(0.30000000000000004…), not the exact decimal 0.30 the claim requires. -/
theorem decimal_arithmetic_counterexample :
    (addToCart 1 (some 1) (some "3") dbP01).1 =
        .ok ⟨1, 1, 1, 3, mkRat 5404319552844596 (2 ^ 54)⟩ ∧
      mkRat 5404319552844596 (2 ^ 54) ≠ mkRat 3 10 := by
  decide

/-- C9 amended: the monetary totals are computed with JavaScript binary64
floating-point arithmetic, not decimal arithmetic — the stored line total
is the binary64 product of the float-parsed price and the quantity, the
checkout total folds the parseFloat images with binary64 addition
(`cartTotal`), results are exact when the values are representable (10
times 3 is exactly 30) and drift otherwise (0.10 times 3 is not 0.30, and
the fold of the doubles of 0.10 and 0.20 is not their exact sum). -/
theorem binary64_totals_spec :
    (∀ (uid pid : ℕ) (qstr : String) (q pr : ℚ) (item : CartItem) (s s2 : Db),
        jsParseInt qstr = some q →
        s.products.find? (fun p => decide (p.1 = pid)) = some (pid, pr) →
        addToCart uid (some pid) (some qstr) s = (.ok item, s2) →
        item.total_price = jsMul (toDouble pr) q) ∧
    (cartTotal [⟨1, 1, 1, 1, toDouble (mkRat 1 10)⟩, ⟨2, 1, 2, 1, toDouble (mkRat 1 5)⟩] ≠
        toDouble (mkRat 1 10) + toDouble (mkRat 1 5)) ∧
    jsMul (toDouble 10) 3 = 30 ∧
    jsMul (toDouble (mkRat 1 10)) 3 ≠ mkRat 3 10 := by
  refine ⟨?_, ?_, ?_, ?_⟩
  · intro uid pid qstr q pr item s s2 hparse hfind h
    exact (addToCart_ok_spec uid pid qstr q pr item s s2 hparse hfind h).1
  · have h1 : cartTotal [⟨1, 1, 1, 1, toDouble (mkRat 1 10)⟩,
        ⟨2, 1, 2, 1, toDouble (mkRat 1 5)⟩] = mkRat 5404319552844596 (2 ^ 54) := by
      decide
    have e1 : toDouble (mkRat 1 10) = mkRat 3602879701896397 (2 ^ 55) := by decide
    have e2 : toDouble (mkRat 1 5) = mkRat 3602879701896397 (2 ^ 54) := by decide
    rw [h1, e1, e2]
    norm_num [Rat.mkRat_eq_div]
  · decide
  · decide

/-- Line stored by the concrete drifting run: quantity 3 at price 0.10. -/
def w9item : CartItem := ⟨1, 1, 1, 3, mkRat 5404319552844596 (2 ^ 54)⟩

/-- Store after adding three units of the 0.10 product to the empty
store. -/
def w9after : Db :=
  ⟨[(1, mkRat 1 10)], [⟨1, 1, .active⟩], [⟨1, 1, 1, 3, mkRat 5404319552844596 (2 ^ 54)⟩],
    [], 2, 2, 1⟩

/-- C9 witness: the concrete stored total is the binary64 product of the
float-parsed price with the quantity, and an exactly representable product
is stored exactly. -/
theorem binary64_totals_witness :
    w9item.total_price = jsMul (toDouble (mkRat 1 10)) 3 ∧ jsMul (toDouble 10) 3 = 30 :=
  ⟨binary64_totals_spec.1 1 1 "3" 3 (mkRat 1 10) w9item dbP01 w9after (by decide)
      (by decide) (by decide),
   binary64_totals_spec.2.2.1⟩
